import Mathlib

/-!
# Verification of the hotel-search visualization pipeline

Shallow embedding of `src/frontend/search_hotels.py`: the rating
aggregator, color encoder, geo-point projector, view framer and the
post-fetch rendering pipeline, with Python floats modelled as `ℚ`,
Python `None` and absent dictionary keys modelled explicitly, and the
theorems settling the specification's claims about them.
-/

namespace SearchHotels

/-- A Python scalar value as it may appear as a `ratings["Overall"]` entry.
`vNone` is Python `None`. -/
inductive PyVal : Type
  | vNone : PyVal
  | vBool : Bool → PyVal
  | vInt : Int → PyVal
  | vFloat : ℚ → PyVal
  | vStr : String → PyVal
  deriving DecidableEq, Repr

/-- The state of a key in a Python dictionary: the key may be absent,
present with value `None`, or present with a value.  `dict.get(k)`
returns `None` for both `absent` and `null`; `dict.get(k, d)` returns
`d` only for `absent`. -/
inductive Field (α : Type) : Type
  | absent : Field α
  | null : Field α
  | val : α → Field α
  deriving DecidableEq, Repr

/-- Python `dict.get(k, default)`: the default applies only when the key
is absent; a key present with value `None` yields `None` (here: `null`
collapses to the `null` marker carried by the caller). -/
def Field.getD {α : Type} (f : Field α) (d : α) : Option α :=
  match f with
  | .absent => some d
  | .null => none
  | .val a => some a

/-- Python `dict.get(k)` (single argument): both an absent key and a
`None` value yield `None`. -/
def Field.get? {α : Type} (f : Field α) : Option α :=
  match f with
  | .absent => none
  | .null => none
  | .val a => some a

/-- Lookup in a Python dict modelled as an association list. -/
def dictGet (d : List (String × PyVal)) (k : String) : Option PyVal :=
  (d.find? (fun p => p.1 = k)).map (fun p => p.2)

/-- One review object: its `ratings` field, where `none` models an
absent or null ratings dict (`(review or {}).get("ratings") or {}`
collapses both to the empty dict). -/
structure ReviewObj : Type where
  ratings : Option (List (String × PyVal))
  deriving DecidableEq, Repr

/-- A review list entry: `none` models a null review in the list. -/
abbrev Review : Type := Option ReviewObj

/-- `((review or {}).get("ratings") or {}).get("Overall")`. -/
def getOverall (rv : Review) : Option PyVal :=
  match rv with
  | none => none
  | some r =>
    match r.ratings with
    | none => none
    | some d => dictGet d "Overall"

/-- Python `isinstance(x, (int, float))`.  `bool` is a subclass of
`int` in Python, so booleans pass this test. -/
def isNumeric : PyVal → Bool
  | .vBool _ => true
  | .vInt _ => true
  | .vFloat _ => true
  | _ => false

/-- Python `float(x)` on a value passing `isinstance(x, (int, float))`:
`float(True) = 1.0`, `float(False) = 0.0`. -/
def pyFloat : PyVal → ℚ
  | .vBool b => if b then 1 else 0
  | .vInt n => (n : ℚ)
  | .vFloat q => q
  | _ => 0

/-- Geo coordinate dict: either component may be absent or null
(`geo.get("lat")` collapses both to `None`). -/
structure Geo : Type where
  lat : Option ℚ
  lon : Option ℚ
  deriving DecidableEq, Repr

/-- A hotel record as consumed by the pipeline. Display fields carry
the full absent/null/value distinction of a Python dict entry; `geo`
is `none` when absent or null (`hotel.get("geo") or {}`). -/
structure Hotel : Type where
  name : Field String
  address : Field String
  city : Field String
  country : Field String
  phone : Field String
  price : Field String
  url : Field String
  geo : Option Geo
  reviews : Option (List Review)
  deriving DecidableEq, Repr

/-- The extraction performed by the loop body of
`compute_rating_from_reviews` for one review: the `Overall` value when
present and numeric, converted by `float(...)`. -/
def overallOf (rv : Review) : Option ℚ :=
  match getOverall rv with
  | some v => if isNumeric v then some (pyFloat v) else none
  | none => none

/-- The `overall_values` list accumulated by
`compute_rating_from_reviews`: qualifying `Overall` values in review
order. -/
def overall_values (h : Hotel) : List ℚ :=
  (h.reviews.getD []).filterMap overallOf

/-- `compute_rating_from_reviews`: average the qualifying `Overall`
values and double, or `0.0` when none qualify. -/
def compute_rating_from_reviews (h : Hotel) : ℚ :=
  let vs := overall_values h
  let avg_overall : Option ℚ :=
    if vs.isEmpty then none else some (vs.sum / vs.length)
  match avg_overall with
  | some a => a * 2
  | none => 0

/-- Python `int(x)`: truncation toward zero. -/
def pyInt (q : ℚ) : ℤ :=
  if q < 0 then ⌈q⌉ else ⌊q⌋

/-- The `normalized` value of `color_from_rating`:
`max(0.0, min(1.0, rating / 10.0))`. -/
def normalizedOf (rating : ℚ) : ℚ :=
  max 0 (min 1 (rating / 10))

/-- Red channel of `color_from_rating`: `int(255 * (1.0 - normalized))`. -/
def redOf (rating : ℚ) : ℤ :=
  pyInt (255 * (1 - normalizedOf rating))

/-- Green channel of `color_from_rating`:
`int(200 * normalized + 30 * (1 - normalized))`. -/
def greenOf (rating : ℚ) : ℤ :=
  pyInt (200 * normalizedOf rating + 30 * (1 - normalizedOf rating))

/-- `color_from_rating`: RGBA list with fixed blue 40 and alpha 200. -/
def color_from_rating (rating : ℚ) : List ℤ :=
  [redOf rating, greenOf rating, 40, 200]

/-- Round half to even, as Python float formatting does on the
(idealized, exact) value. -/
def halfEvenRound (x : ℚ) : ℤ :=
  let f := ⌊x⌋
  if x - f < 1/2 then f
  else if 1/2 < x - f then f + 1
  else if f % 2 = 0 then f else f + 1

/-- Render a nonnegative number of tenths as a one-decimal string. -/
def tenthsStr (m : ℤ) : String :=
  toString (m / 10) ++ "." ++ toString (m % 10)

/-- Python `f"{q:.1f}"` on the idealized exact value: one decimal
place, round half to even. -/
def fmtRat1 (q : ℚ) : String :=
  let m := halfEvenRound (q * 10)
  if m < 0 then "-" ++ tenthsStr (-m) else tenthsStr m

/-- What Python's f-string interpolation of `hotel.get(k, '')` prints:
the default `''` for an absent key, the literal `None` rendering for a
key present with value `None`, the string itself otherwise. -/
def fmtField (f : Field String) : String :=
  match f with
  | .absent => ""
  | .null => "None"
  | .val s => s

/-- The `details` tooltip string assembled in `hotels_to_points`. -/
def detailsOf (h : Hotel) (rating : ℚ) : String :=
  "<br/><div style=\x27margin-top: 5px;\x27>" ++
  "<b>Rating:</b> " ++ fmtRat1 rating ++ "/10<br/>" ++
  "<b>Address:</b> " ++ fmtField h.address ++ "<br/>" ++
  "<b>City:</b> " ++ fmtField h.city ++ "<br/>" ++
  "<b>Country:</b> " ++ fmtField h.country ++ "<br/>" ++
  "<b>Price:</b> " ++ fmtField h.price ++ "<br/>" ++
  "<b>Phone:</b> " ++ fmtField h.phone ++ "<br/>" ++
  "<b>Website:</b> " ++ fmtField h.url ++
  "</div>"

/-- A renderable map point as assembled by `hotels_to_points`.  The
`name` keeps the `Field` state delivered by `hotel.get("name", "")`. -/
structure MapPoint : Type where
  name : Field String
  details : String
  lat : ℚ
  lon : ℚ
  color : List ℤ
  deriving DecidableEq, Repr

/-- `hotel.get("name", "")`: the default replaces only an absent key. -/
def nameOf (h : Hotel) : Field String :=
  match h.name with
  | .absent => .val ""
  | f => f

/-- The body of the `hotels_to_points` loop for one hotel: `none` when
the record is skipped for a missing coordinate. -/
def toPoint (h : Hotel) : Option MapPoint :=
  let geo := h.geo.getD ⟨none, none⟩
  match geo.lat, geo.lon with
  | some lat, some lon =>
    let rating := compute_rating_from_reviews h
    some { name := nameOf h
           details := detailsOf h rating
           lat := lat
           lon := lon
           color := color_from_rating rating }
  | _, _ => none

/-- `hotels_to_points`: project each hotel in order, skipping records
whose latitude or longitude is missing. -/
def hotels_to_points (hotels : List Hotel) : List MapPoint :=
  hotels.filterMap toPoint

/-- Airport location dict (`lat`, `lon`, `accuracy`). -/
structure Loc : Type where
  lat : ℚ
  lon : ℚ
  accuracy : Option String
  deriving DecidableEq, Repr

/-- Airport record: a name and an optional location. -/
structure Airport : Type where
  name : Field String
  location : Option Loc
  deriving DecidableEq, Repr

/-- `max` over a Python list (defined for nonempty lists; `0` is a
dummy value for the empty list, never reached by the pipeline). -/
def listMax (xs : List ℚ) : ℚ :=
  match xs with
  | [] => 0
  | x :: rest => rest.foldl max x

/-- `min` over a Python list (same convention as `listMax`). -/
def listMin (xs : List ℚ) : ℚ :=
  match xs with
  | [] => 0
  | x :: rest => rest.foldl min x

/-- `airport and airport.get("location")`: the airport marker and its
coordinates enter the bounding box only when the airport is present and
carries a location. -/
def airportLoc (airport : Option Airport) : Option Loc :=
  match airport with
  | none => none
  | some a => a.location

/-- All latitudes entering `build_map`'s bounding box: hotel points
plus the airport when present with a location. -/
def allLats (pts : List MapPoint) (airport : Option Airport) : List ℚ :=
  pts.map MapPoint.lat ++
    (match airportLoc airport with
     | some loc => [loc.lat]
     | none => [])

/-- All longitudes entering `build_map`'s bounding box. -/
def allLons (pts : List MapPoint) (airport : Option Airport) : List ℚ :=
  pts.map MapPoint.lon ++
    (match airportLoc airport with
     | some loc => [loc.lon]
     | none => [])

/-- `max_range` in `build_map`: the larger of the latitude range and
the longitude range over all plotted points. -/
def maxRange (pts : List MapPoint) (airport : Option Airport) : ℚ :=
  max (listMax (allLats pts airport) - listMin (allLats pts airport))
      (listMax (allLons pts airport) - listMin (allLons pts airport))

/-- The zoom selection chain of `build_map`. -/
def zoomOfRange (r : ℚ) : ℕ :=
  if r > 1 then 8
  else if r > 1/2 then 9
  else if r > 1/5 then 10
  else if r > 1/10 then 11
  else 12

/-- The view state computed by `build_map`: center latitude, center
longitude and zoom (pitch and bearing are fixed at 0). -/
def build_map_view (pts : List MapPoint) (airport : Option Airport) :
    ℚ × ℚ × ℕ :=
  let lats := allLats pts airport
  let lons := allLons pts airport
  ((lats.sum / lats.length), (lons.sum / lons.length),
    zoomOfRange (maxRange pts airport))

/-- The `listHotelsNearAirport` object of a response payload. -/
structure LHNAObj : Type where
  hotels : Field (List Hotel)
  airport : Field Airport

/-- The `data` object of a response payload. -/
structure DataObj : Type where
  listHotelsNearAirport : Field LHNAObj

/-- A decoded JSON response payload (`resp.json()`), modelling the
error list as opaque message strings. -/
structure Payload : Type where
  errors : Field (List String)
  data : Field DataObj

/-- The empty dict `{}` standing in for a missing `data` object. -/
def emptyDataObj : DataObj := ⟨.absent⟩

/-- The empty dict `{}` standing in for a missing
`listHotelsNearAirport` object. -/
def emptyLHNA : LHNAObj := ⟨.absent, .absent⟩

/-- Python truthiness of `payload.get("errors")`: truthy exactly when
the key is present with a non-empty list. -/
def errorsTruthy (p : Payload) : Bool :=
  match p.errors with
  | .val (_ :: _) => true
  | _ => false

/-- Python `str` of a list of strings, as interpolated into
`RuntimeError(str(payload["errors"]))`. -/
def pyStrList (l : List String) : String :=
  "[" ++ String.intercalate ", " (l.map fun s => "\x27" ++ s ++ "\x27") ++ "]"

/-- The `AttributeError` message raised when `.get` is called on
`None` (a key present with a null value). -/
def attrErrMsg : String :=
  "\x27NoneType\x27 object has no attribute \x27get\x27"

/-- The dictionary returned by `fetch_hotels`: `hotels` and `airport`
as Python values (`none` is Python `None`). -/
structure FetchRes : Type where
  hotels : Option (List Hotel)
  airport : Option Airport

/-- `fetch_hotels` on a decoded payload: raise on a truthy error list,
then drill into `data.listHotelsNearAirport` with empty-dict defaults
(a key present with a null value makes the chained `.get` raise an
`AttributeError`). -/
def fetch_hotels (p : Payload) : Except String FetchRes :=
  if errorsTruthy p then
    .error (pyStrList (match p.errors with | .val l => l | _ => []))
  else
    match p.data.getD emptyDataObj with
    | none => .error attrErrMsg
    | some d =>
      match d.listHotelsNearAirport.getD emptyLHNA with
      | none => .error attrErrMsg
      | some result =>
        .ok { hotels := result.hotels.getD []
              airport := result.airport.get? }

/-- The terminal outcome of one search action in `render`. -/
inductive RenderOutcome : Type
  | transportError : String → RenderOutcome
  | resolutionFailed : RenderOutcome
  | noResults : RenderOutcome
  | noPlottablePoints : RenderOutcome
  | mapBuilt : List MapPoint → (ℚ × ℚ × ℕ) → RenderOutcome
  deriving DecidableEq

/-- The post-fetch part of `render`: check the airport (`if not
airport`), then the hotel list (`if not hotels`), then the projected
points, and only then build the map. -/
def renderFetched (r : FetchRes) : RenderOutcome :=
  match r.airport with
  | none => .resolutionFailed
  | some _ =>
    match r.hotels with
    | none => .noResults
    | some [] => .noResults
    | some hs =>
      let pts := hotels_to_points hs
      if pts.isEmpty then .noPlottablePoints
      else .mapBuilt pts (build_map_view pts r.airport)

/-- The whole post-Search flow of `render` on a decoded payload: any
exception out of `fetch_hotels` is caught and surfaced as a GraphQL
error message. -/
def renderPipeline (p : Payload) : RenderOutcome :=
  match fetch_hotels p with
  | .error e => .transportError ("GraphQL error: " ++ e)
  | .ok r => renderFetched r

/-- Discriminator for the `transportError` outcome. -/
def isTransportError : RenderOutcome → Bool
  | .transportError _ => true
  | _ => false

/-! ## Sample records used as concrete inputs -/

/-- A review carrying a single `Overall` rating entry. -/
def mkOverallReview (v : PyVal) : Review :=
  some ⟨some [("Overall", v)]⟩

/-- A hotel with all display fields absent, a fixed coordinate, and the
given reviews. -/
def sampleHotel (revs : Option (List Review)) : Hotel :=
  { name := .absent, address := .absent, city := .absent,
    country := .absent, phone := .absent, price := .absent,
    url := .absent, geo := some ⟨some 10, some 20⟩, reviews := revs }

/-- The scenario hotel: reviews with `Overall` values 4, 5 and the
string `n/a`. -/
def hotelOverall45na : Hotel :=
  sampleHotel (some [mkOverallReview (.vInt 4), mkOverallReview (.vInt 5),
    mkOverallReview (.vStr "n/a")])

/-- A hotel with no reviews at all. -/
def hotelNoReviews : Hotel := sampleHotel none

/-- A hotel with a single review whose `Overall` value is 7 (outside
the 0-5 source scale). -/
def hotelOverall7 : Hotel := sampleHotel (some [mkOverallReview (.vInt 7)])

/-- A hotel with a single review whose `Overall` value is boolean
`True`. -/
def hotelOverallTrue : Hotel :=
  sampleHotel (some [mkOverallReview (.vBool true)])

/-! ## Evaluation helpers -/

theorem overall_values_45na : overall_values hotelOverall45na = [4, 5] := by
  simp [overall_values, hotelOverall45na, sampleHotel, mkOverallReview,
    overallOf, getOverall, dictGet, isNumeric, pyFloat]

theorem compute_rating_45na : compute_rating_from_reviews hotelOverall45na = 9 := by
  rw [compute_rating_from_reviews, overall_values_45na]
  norm_num

theorem compute_rating_overall7 : compute_rating_from_reviews hotelOverall7 = 14 := by
  have hv : overall_values hotelOverall7 = [7] := by
    simp [overall_values, hotelOverall7, sampleHotel, mkOverallReview,
      overallOf, getOverall, dictGet, isNumeric, pyFloat]
  rw [compute_rating_from_reviews, hv]
  norm_num

/-! ## C3, C4, C10 — the rating aggregator -/

/-- C3: for every hotel, if no review has a present, numeric `Overall`
value the aggregated rating is exactly 0; otherwise the rating equals
twice the arithmetic mean of the qualifying `Overall` values, with
non-numeric entries silently skipped; in particular `Overall` values
4, 5 and `n/a` yield 9.0. -/
theorem rating_mean_or_zero (h : Hotel) :
    (overall_values h = [] → compute_rating_from_reviews h = 0) ∧
    (overall_values h ≠ [] →
      compute_rating_from_reviews h =
        ((overall_values h).sum / ((overall_values h).length : ℚ)) * 2) ∧
    compute_rating_from_reviews hotelOverall45na = 9 := by
  refine ⟨?_, ?_, compute_rating_45na⟩
  · intro he
    simp [compute_rating_from_reviews, he]
  · intro hne
    simp [compute_rating_from_reviews, List.isEmpty_iff, hne]

/-- Witness for C3 at concrete inputs on both branches. -/
theorem rating_mean_or_zero_witness :
    compute_rating_from_reviews hotelNoReviews = 0 ∧
    compute_rating_from_reviews hotelOverall45na =
      ((overall_values hotelOverall45na).sum /
        ((overall_values hotelOverall45na).length : ℚ)) * 2 :=
  ⟨(rating_mean_or_zero hotelNoReviews).1 rfl,
   (rating_mean_or_zero hotelOverall45na).2.1 (by rw [overall_values_45na]; simp)⟩

/-- C4 counterexample: a review with `Overall = 7` (which real data
never holds, but the claim quantifies over every review content)
produces rating 14, outside `[0, 10]`. -/
theorem rating_range_counterexample :
    ¬ (0 ≤ compute_rating_from_reviews hotelOverall7 ∧
       compute_rating_from_reviews hotelOverall7 ≤ 10) := by
  rw [compute_rating_overall7]
  norm_num

/-- C4 (amended): whenever every qualifying `Overall` value lies in the
source scale `[0, 5]`, the aggregated rating lies in `[0, 10]`. -/
theorem rating_range_of_bounded (h : Hotel)
    (hb : ∀ v ∈ overall_values h, 0 ≤ v ∧ v ≤ 5) :
    0 ≤ compute_rating_from_reviews h ∧
      compute_rating_from_reviews h ≤ 10 := by
  rcases hvs : overall_values h with _ | ⟨v, vs⟩
  · simp [compute_rating_from_reviews, hvs]
  · rw [hvs] at hb
    have hlenpos : (0:ℚ) < ((v :: vs).length : ℚ) := by
      exact_mod_cast Nat.succ_pos vs.length
    have hsum0 : 0 ≤ (v :: vs).sum :=
      List.sum_nonneg fun x hx => (hb x hx).1
    have hsum5 : (v :: vs).sum ≤ ((v :: vs).length : ℚ) * 5 := by
      have := List.sum_le_card_nsmul (v :: vs) 5 fun x hx => (hb x hx).2
      simpa [nsmul_eq_mul] using this
    have hhi : (v :: vs).sum / ((v :: vs).length : ℚ) * 2 ≤ 10 := by
      rw [div_mul_eq_mul_div, div_le_iff₀ hlenpos]
      nlinarith
    have hlo : 0 ≤ (v :: vs).sum / ((v :: vs).length : ℚ) * 2 := by
      positivity
    constructor
    · simpa [compute_rating_from_reviews, hvs] using hlo
    · simpa [compute_rating_from_reviews, hvs] using hhi

/-- Witness for C4 (amended) at the scenario hotel. -/
theorem rating_range_of_bounded_witness :
    0 ≤ compute_rating_from_reviews hotelOverall45na ∧
      compute_rating_from_reviews hotelOverall45na ≤ 10 :=
  rating_range_of_bounded hotelOverall45na (by
    rw [overall_values_45na]
    intro v hv
    simp only [List.mem_cons, List.not_mem_nil, or_false] at hv
    rcases hv with rfl | rfl <;> norm_num)

/-- C10: the numeric test `isinstance(x, (int, float))` admits Python
booleans, so a review whose `Overall` is boolean `True` contributes the
value 1.0 (and `False` the value 0.0) to the average instead of being
skipped. -/
theorem bool_overall_counted (h : Hotel) (pre post : List Review)
    (rv : Review) (b : Bool)
    (hrev : h.reviews = some (pre ++ rv :: post))
    (hov : getOverall rv = some (.vBool b)) :
    overall_values h =
      pre.filterMap overallOf ++
        (if b then (1:ℚ) else 0) :: post.filterMap overallOf := by
  simp [overall_values, hrev, List.filterMap_append, List.filterMap_cons,
    overallOf, hov, isNumeric, pyFloat]

/-- Witness for C10: a single boolean-`True` review is counted as 1. -/
theorem bool_overall_counted_witness :
    overall_values hotelOverallTrue = [1] := by
  have := bool_overall_counted hotelOverallTrue [] []
    (mkOverallReview (.vBool true)) true rfl rfl
  simpa using this

/-! ## C5 — the color encoder -/

theorem normalized_nonneg (r : ℚ) : 0 ≤ normalizedOf r :=
  le_max_left 0 _

theorem normalized_le_one (r : ℚ) : normalizedOf r ≤ 1 :=
  max_le zero_le_one (min_le_left 1 _)

theorem normalized_mono {r1 r2 : ℚ} (h : r1 ≤ r2) :
    normalizedOf r1 ≤ normalizedOf r2 := by
  unfold normalizedOf
  have hd : r1 / 10 ≤ r2 / 10 := by
    apply div_le_div_of_nonneg_right h
    norm_num
  exact max_le_max le_rfl (min_le_min le_rfl hd)

theorem pyInt_of_nonneg {q : ℚ} (h : 0 ≤ q) : pyInt q = ⌊q⌋ := by
  simp [pyInt, not_lt.mpr h]

theorem greenOf_eq_floor (r : ℚ) :
    greenOf r = ⌊200 * normalizedOf r + 30 * (1 - normalizedOf r)⌋ := by
  rw [greenOf, pyInt_of_nonneg]
  nlinarith [normalized_nonneg r, normalized_le_one r]

theorem redOf_eq_floor (r : ℚ) :
    redOf r = ⌊255 * (1 - normalizedOf r)⌋ := by
  rw [redOf, pyInt_of_nonneg]
  nlinarith [normalized_le_one r]

theorem normalizedOf_zero : normalizedOf 0 = 0 := by
  rw [normalizedOf]
  norm_num

theorem normalizedOf_ten : normalizedOf 10 = 1 := by
  rw [normalizedOf]
  norm_num

/-- C5: on `[0, 10]` the green channel of `color_from_rating` is
monotonically non-decreasing and the red channel monotonically
non-increasing in the rating; rating 0 encodes to `(255, 30, 40, 200)`
and rating 10 to `(0, 200, 40, 200)`; blue is always 40 and alpha
always 200. -/
theorem color_gradient (r1 r2 : ℚ) (h0 : 0 ≤ r1) (h12 : r1 ≤ r2)
    (h10 : r2 ≤ 10) :
    (greenOf r1 ≤ greenOf r2 ∧ redOf r2 ≤ redOf r1) ∧
    color_from_rating 0 = [255, 30, 40, 200] ∧
    color_from_rating 10 = [0, 200, 40, 200] ∧
    (∀ r : ℚ, color_from_rating r = [redOf r, greenOf r, 40, 200]) := by
  have hn := normalized_mono h12
  refine ⟨⟨?_, ?_⟩, ?_, ?_, fun r => rfl⟩
  · rw [greenOf_eq_floor, greenOf_eq_floor]
    apply Int.floor_le_floor
    nlinarith
  · rw [redOf_eq_floor, redOf_eq_floor]
    apply Int.floor_le_floor
    nlinarith
  · rw [color_from_rating, redOf_eq_floor, greenOf_eq_floor,
      normalizedOf_zero]
    norm_num
  · rw [color_from_rating, redOf_eq_floor, greenOf_eq_floor,
      normalizedOf_ten]
    norm_num

/-- Witness for C5 at ratings 3 and 7. -/
theorem color_gradient_witness :
    greenOf 3 ≤ greenOf 7 ∧ redOf 7 ≤ redOf 3 :=
  (color_gradient 3 7 (by norm_num) (by norm_num) (by norm_num)).1

/-! ## C6, C7 — the geo-point projector -/

/-- A hotel passes the coordinate check of `hotels_to_points` exactly
when both `lat` and `lon` are present. -/
def plottable (h : Hotel) : Bool :=
  (h.geo.getD ⟨none, none⟩).lat.isSome && (h.geo.getD ⟨none, none⟩).lon.isSome

/-- The point a plottable hotel projects to (coordinate defaults are
never used on plottable hotels). -/
def projectPoint (h : Hotel) : MapPoint :=
  { name := nameOf h
    details := detailsOf h (compute_rating_from_reviews h)
    lat := (h.geo.getD ⟨none, none⟩).lat.getD 0
    lon := (h.geo.getD ⟨none, none⟩).lon.getD 0
    color := color_from_rating (compute_rating_from_reviews h) }

theorem toPoint_eq_none (h : Hotel) (hp : plottable h = false) :
    toPoint h = none := by
  rw [toPoint]
  rw [plottable, Bool.and_eq_false_iff] at hp
  rcases hp with hp | hp <;>
    rcases hl : (h.geo.getD ⟨none, none⟩).lat with _ | a <;>
    rcases hm : (h.geo.getD ⟨none, none⟩).lon with _ | b <;>
    simp_all

theorem toPoint_eq_some (h : Hotel) (hp : plottable h = true) :
    toPoint h = some (projectPoint h) := by
  rw [toPoint]
  rw [plottable, Bool.and_eq_true] at hp
  rcases hl : (h.geo.getD ⟨none, none⟩).lat with _ | a <;>
    rcases hm : (h.geo.getD ⟨none, none⟩).lon with _ | b <;>
    simp_all [projectPoint]

/-- A hotel with no geo object at all. -/
def hotelNoGeo : Hotel :=
  { name := .absent, address := .absent, city := .absent,
    country := .absent, phone := .absent, price := .absent,
    url := .absent, geo := none, reviews := none }

/-- C6: a hotel whose latitude or longitude is absent is dropped
(never errored), every other hotel produces exactly one `MapPoint`,
and the output order equals the input order with no sorting or
deduplication. -/
theorem projector_drop_and_order (hotels : List Hotel) :
    hotels_to_points hotels = (hotels.filter plottable).map projectPoint ∧
    (∀ h, plottable h = false → toPoint h = none) ∧
    (∀ h, plottable h = true → toPoint h = some (projectPoint h)) := by
  refine ⟨?_, toPoint_eq_none, toPoint_eq_some⟩
  induction hotels with
  | nil => rfl
  | cons hd tl ih =>
    rw [hotels_to_points, List.filterMap_cons]
    cases hp : plottable hd
    · rw [toPoint_eq_none hd hp, List.filter_cons_of_neg (by simp [hp])]
      exact ih
    · rw [toPoint_eq_some hd hp, List.filter_cons_of_pos (by simp [hp]),
        List.map_cons]
      rw [hotels_to_points] at ih
      rw [ih]

/-- Witness for C6: a geo-less hotel is dropped, a geolocated one is
kept, and the order of the remainder is the input order. -/
theorem projector_drop_and_order_witness :
    hotels_to_points [hotelNoGeo, hotelNoReviews, hotelOverall45na] =
      [projectPoint hotelNoReviews, projectPoint hotelOverall45na] ∧
    toPoint hotelNoGeo = none := by
  refine ⟨?_, (projector_drop_and_order []).2.1 hotelNoGeo rfl⟩
  rw [(projector_drop_and_order [hotelNoGeo, hotelNoReviews, hotelOverall45na]).1]
  rfl

/-- The field text as the specification words it: the string value
when one is carried, the empty-string fallback otherwise. -/
def fieldOrEmpty (f : Field String) : String :=
  match f with
  | .val s => s
  | _ => ""

/-- The detail text as the specification words it: the same
fixed-order template, with an empty-string fallback for every source
field that does not carry a string value. -/
def detailsSpec (h : Hotel) (rating : ℚ) : String :=
  "<br/><div style=\x27margin-top: 5px;\x27>" ++
  "<b>Rating:</b> " ++ fmtRat1 rating ++ "/10<br/>" ++
  "<b>Address:</b> " ++ fieldOrEmpty h.address ++ "<br/>" ++
  "<b>City:</b> " ++ fieldOrEmpty h.city ++ "<br/>" ++
  "<b>Country:</b> " ++ fieldOrEmpty h.country ++ "<br/>" ++
  "<b>Price:</b> " ++ fieldOrEmpty h.price ++ "<br/>" ++
  "<b>Phone:</b> " ++ fieldOrEmpty h.phone ++ "<br/>" ++
  "<b>Website:</b> " ++ fieldOrEmpty h.url ++
  "</div>"

theorem fmtField_eq_fieldOrEmpty (f : Field String) (hf : f ≠ .null) :
    fmtField f = fieldOrEmpty f := by
  cases f <;> simp_all [fmtField, fieldOrEmpty]

theorem halfEvenRound_zero : halfEvenRound 0 = 0 := by
  rw [halfEvenRound]
  norm_num

theorem fmtRat1_zero : fmtRat1 0 = "0.0" := by
  have h10 : (0 : ℚ) * 10 = 0 := by norm_num
  rw [fmtRat1, h10, halfEvenRound_zero]
  rfl

/-- A hotel whose `address` key is present with a JSON `null` value
(the shape the GraphQL layer actually returns for a missing address). -/
def hotelNullAddress : Hotel :=
  { name := .absent, address := .null, city := .absent,
    country := .absent, phone := .absent, price := .absent,
    url := .absent, geo := some ⟨some 10, some 20⟩, reviews := none }

/-- Whether `pat` occurs as a contiguous subsequence of the second
list (used to witness literal text inside a rendered string). -/
def occursIn (pat : List Char) : List Char → Bool
  | [] => pat.isEmpty
  | c :: rest => pat.isPrefixOf (c :: rest) || occursIn pat rest

/-- C7 counterexample: the hotel whose address is present-but-null is
projected, and its detail text contains the literal text `None`. -/
theorem details_none_counterexample :
    (hotels_to_points [hotelNullAddress]).map MapPoint.details =
      [detailsOf hotelNullAddress 0] ∧
    occursIn "None".toList (detailsOf hotelNullAddress 0).toList = true := by
  constructor
  · rfl
  · rw [detailsOf, fmtRat1_zero]
    decide

/-- C7 (amended): the detail text is the fixed-order concatenation of
the one-decimal rating with suffix `/10` and the six display fields,
each absent field contributing the empty string in its place; this
never-`None` behaviour holds for every field that is absent or
carries a string, while a field present with a null value renders as
the literal text `None`. -/
theorem details_fixed_order_fallback (h : Hotel) (r : ℚ)
    (ha : h.address ≠ .null) (hc : h.city ≠ .null)
    (hco : h.country ≠ .null) (hpr : h.price ≠ .null)
    (hph : h.phone ≠ .null) (hu : h.url ≠ .null) :
    detailsOf h r = detailsSpec h r := by
  rw [detailsOf, detailsSpec,
    fmtField_eq_fieldOrEmpty h.address ha,
    fmtField_eq_fieldOrEmpty h.city hc,
    fmtField_eq_fieldOrEmpty h.country hco,
    fmtField_eq_fieldOrEmpty h.price hpr,
    fmtField_eq_fieldOrEmpty h.phone hph,
    fmtField_eq_fieldOrEmpty h.url hu]

/-- Witness for C7 (amended) at an all-absent-field hotel. -/
theorem details_fixed_order_fallback_witness :
    detailsOf hotelNoReviews 9 = detailsSpec hotelNoReviews 9 :=
  details_fixed_order_fallback hotelNoReviews 9 (by decide) (by decide)
    (by decide) (by decide) (by decide) (by decide)

/-! ## C1 — the view framer -/

/-- A review-less hotel pinned at the given latitude (longitude 77). -/
def hotelAtLat (lt : ℚ) : Hotel :=
  { name := .absent, address := .absent, city := .absent,
    country := .absent, phone := .absent, price := .absent,
    url := .absent, geo := some ⟨some lt, some 77⟩, reviews := none }

/-- The scenario airport, at latitude 10.1, longitude 77. -/
def airportScenario : Airport :=
  ⟨.val "Test Intl", some ⟨101/10, 77, none⟩⟩

/-- The scenario point set: three hotels at latitudes 10.0, 10.2 and
10.05, all at longitude 77. -/
def ptsScenario : List MapPoint :=
  hotels_to_points [hotelAtLat 10, hotelAtLat (51/5), hotelAtLat (201/20)]

theorem ptsScenario_lats :
    allLats ptsScenario (some airportScenario) = [10, 51/5, 201/20, 101/10] := by
  rw [allLats, ptsScenario]
  rfl

theorem ptsScenario_lons :
    allLons ptsScenario (some airportScenario) = [77, 77, 77, 77] := by
  rw [allLons, ptsScenario]
  rfl

theorem maxRange_scenario :
    maxRange ptsScenario (some airportScenario) = 1/5 := by
  rw [maxRange, ptsScenario_lats, ptsScenario_lons, listMax, listMin,
    listMax, listMin]
  norm_num [max_def, min_def]

theorem ptsScenario_ne : ptsScenario ≠ [] := by
  rw [ptsScenario]
  decide

/-- C1 counterexample: the scenario point set spans exactly 0.2°, and
`build_map` selects zoom 11 there, not the claimed zoom 10 — the
strict `>` comparison makes an exact-threshold span fall through to
the next, finer tier. -/
theorem zoom_tie_counterexample :
    maxRange ptsScenario (some airportScenario) = 1/5 ∧
    (build_map_view ptsScenario (some airportScenario)).2.2 = 11 := by
  refine ⟨maxRange_scenario, ?_⟩
  rw [build_map_view]
  rw [maxRange_scenario]
  norm_num [zoomOfRange]

/-- C1 (amended): zoom is selected from the bounding-box span by the
fixed thresholds — 8 above 1.0°, 9 above 0.5°, 10 above 0.2°, 11
above 0.1°, 12 otherwise — and a span exactly on a threshold falls to
the next finer tier: a span of exactly 0.2° yields zoom 11, not 10. -/
theorem zoom_thresholds (pts : List MapPoint) (apt : Option Airport)
    (hne : pts ≠ []) :
    ((build_map_view pts apt).2.2 = zoomOfRange (maxRange pts apt)) ∧
    (1 < maxRange pts apt → zoomOfRange (maxRange pts apt) = 8) ∧
    (1/2 < maxRange pts apt ∧ maxRange pts apt ≤ 1 →
      zoomOfRange (maxRange pts apt) = 9) ∧
    (1/5 < maxRange pts apt ∧ maxRange pts apt ≤ 1/2 →
      zoomOfRange (maxRange pts apt) = 10) ∧
    (1/10 < maxRange pts apt ∧ maxRange pts apt ≤ 1/5 →
      zoomOfRange (maxRange pts apt) = 11) ∧
    (maxRange pts apt ≤ 1/10 → zoomOfRange (maxRange pts apt) = 12) ∧
    (maxRange pts apt = 1/5 → (build_map_view pts apt).2.2 = 11) := by
  have hview : (build_map_view pts apt).2.2 = zoomOfRange (maxRange pts apt) := rfl
  refine ⟨hview, ?_, ?_, ?_, ?_, ?_, ?_⟩ <;> intro hs
  · rw [zoomOfRange, if_pos hs]
  · rw [zoomOfRange, if_neg (by linarith [hs.2]), if_pos hs.1]
  · rw [zoomOfRange, if_neg (by linarith [hs.2]),
      if_neg (by linarith [hs.2]), if_pos hs.1]
  · rw [zoomOfRange, if_neg (by linarith [hs.2]),
      if_neg (by linarith [hs.2]), if_neg (by linarith [hs.2]), if_pos hs.1]
  · rw [zoomOfRange, if_neg (by linarith), if_neg (by linarith),
      if_neg (by linarith), if_neg (by linarith)]
  · rw [hview, hs]
    norm_num [zoomOfRange]

/-- Witness for C1 (amended) at the scenario point set. -/
theorem zoom_thresholds_witness :
    (build_map_view ptsScenario (some airportScenario)).2.2 = 11 :=
  (zoom_thresholds ptsScenario (some airportScenario)
    ptsScenario_ne).2.2.2.2.2.2 maxRange_scenario

/-! ## C2 — ordering of the terminal conditions -/

/-- C2: on every fetched result, a missing airport halts the pipeline
with the resolution failure before any point is projected — even when
hotel records are present; an airport with an empty (or null) hotel
list halts with the no-results report; hotels none of which is
plottable halt with the distinct no-plottable-points warning; and only
otherwise is the map built. -/
theorem pipeline_halt_order (r : FetchRes) :
    (r.airport = none → renderFetched r = .resolutionFailed) ∧
    (r.airport ≠ none → (r.hotels = none ∨ r.hotels = some []) →
      renderFetched r = .noResults) ∧
    (∀ hs, r.airport ≠ none → r.hotels = some hs → hs ≠ [] →
      hotels_to_points hs = [] → renderFetched r = .noPlottablePoints) ∧
    (∀ hs, r.airport ≠ none → r.hotels = some hs → hs ≠ [] →
      hotels_to_points hs ≠ [] →
      renderFetched r = .mapBuilt (hotels_to_points hs)
        (build_map_view (hotels_to_points hs) r.airport)) := by
  obtain ⟨hotels, airport⟩ := r
  refine ⟨?_, ?_, ?_, ?_⟩
  · intro ha
    rw [show (FetchRes.mk hotels airport).airport = airport from rfl] at ha
    subst ha
    rfl
  · intro hane hfalsy
    rcases airport with _ | a
    · exact absurd rfl hane
    · rcases hfalsy with h | h <;>
        rw [show (FetchRes.mk hotels (some a)).hotels = hotels from rfl] at h <;>
        subst h <;> rfl
  · intro hs hane hhs hne hpts
    rcases airport with _ | a
    · exact absurd rfl hane
    · rw [show (FetchRes.mk hotels (some a)).hotels = hotels from rfl] at hhs
      subst hhs
      rcases hs with _ | ⟨h0, tl⟩
      · exact absurd rfl hne
      · simp [renderFetched, hpts]
  · intro hs hane hhs hne hpts
    rcases airport with _ | a
    · exact absurd rfl hane
    · rw [show (FetchRes.mk hotels (some a)).hotels = hotels from rfl] at hhs
      subst hhs
      rcases hs with _ | ⟨h0, tl⟩
      · exact absurd rfl hne
      · simp [renderFetched, List.isEmpty_iff, hpts]

/-- Witness for C2: an unresolved airport wins over present hotel
data, and an empty hotel list with a resolved airport reports no
results. -/
theorem pipeline_halt_order_witness :
    renderFetched ⟨some [hotelOverall45na], none⟩ = .resolutionFailed ∧
    renderFetched ⟨some [], some airportScenario⟩ = .noResults :=
  ⟨(pipeline_halt_order ⟨some [hotelOverall45na], none⟩).1 rfl,
   (pipeline_halt_order ⟨some [], some airportScenario⟩).2.1
     (by simp) (Or.inr rfl)⟩

/-! ## C8, C9 — transport-level error handling -/

/-- C8: a payload carrying a non-empty error list makes the fetch
raise, the raised message is surfaced as a transport error, and no map
is built from that response. -/
theorem errors_hard_failure (p : Payload) (l : List String)
    (he : p.errors = .val l) (hne : l ≠ []) :
    fetch_hotels p = .error (pyStrList l) ∧
    renderPipeline p = .transportError ("GraphQL error: " ++ pyStrList l) ∧
    isTransportError (renderPipeline p) = true := by
  have htr : errorsTruthy p = true := by
    rw [errorsTruthy, he]
    rcases l with _ | ⟨e, es⟩
    · exact absurd rfl hne
    · rfl
  have hf : fetch_hotels p = .error (pyStrList l) := by
    rw [fetch_hotels, he] at *
    simp [htr]
  have hp : renderPipeline p = .transportError ("GraphQL error: " ++ pyStrList l) := by
    rw [renderPipeline, hf]
  exact ⟨hf, hp, by rw [hp]; rfl⟩

/-- A payload with both an error list and (ignored) result data. -/
def payloadErrWithData : Payload :=
  ⟨.val ["Internal failure"],
   .val ⟨.val ⟨.val [hotelOverall45na], .val airportScenario⟩⟩⟩

/-- Witness for C8: the error wins even when the payload carries hotel
and airport data. -/
theorem errors_hard_failure_witness :
    renderPipeline payloadErrWithData =
      .transportError ("GraphQL error: " ++ pyStrList ["Internal failure"]) :=
  (errors_hard_failure payloadErrWithData ["Internal failure"] rfl
    (by simp)).2.1

/-- A well-formed JSON payload missing both the error list and the
expected data structure. -/
def payloadNoData : Payload := ⟨.absent, .absent⟩

/-- C9 counterexample: a malformed payload whose `data` key is simply
absent is reported as a failed airport resolution, not as a transport
error. -/
theorem malformed_resolution_counterexample :
    renderPipeline payloadNoData = .resolutionFailed ∧
    isTransportError (renderPipeline payloadNoData) = false := by
  exact ⟨rfl, rfl⟩

/-- C9 (amended): with no error list, a payload whose `data` key is
present with a null value (or whose `listHotelsNearAirport` key is
null) raises inside the fetch and surfaces a transport error, but a
payload merely missing those keys degrades to an empty result and
surfaces the airport-not-found resolution failure instead. -/
theorem malformed_payload_outcomes (p : Payload)
    (hre : errorsTruthy p = false) :
    (p.data = .null →
      renderPipeline p = .transportError ("GraphQL error: " ++ attrErrMsg)) ∧
    (p.data = .absent → renderPipeline p = .resolutionFailed) ∧
    (∀ d, p.data = .val d → d.listHotelsNearAirport = .null →
      renderPipeline p = .transportError ("GraphQL error: " ++ attrErrMsg)) ∧
    (∀ d, p.data = .val d → d.listHotelsNearAirport = .absent →
      renderPipeline p = .resolutionFailed) := by
  refine ⟨?_, ?_, ?_, ?_⟩
  · intro hd
    simp [renderPipeline, fetch_hotels, hre, hd, Field.getD]
  · intro hd
    simp [renderPipeline, fetch_hotels, hre, hd, Field.getD, emptyDataObj,
      emptyLHNA, Field.get?, renderFetched]
  · intro d hd hl
    simp [renderPipeline, fetch_hotels, hre, hd, hl, Field.getD]
  · intro d hd hl
    simp [renderPipeline, fetch_hotels, hre, hd, hl, Field.getD, emptyLHNA,
      Field.get?, renderFetched]

/-- A payload whose `data` key is present with a null value. -/
def payloadNullData : Payload := ⟨.absent, .null⟩

/-- Witness for C9 (amended): a null `data` value does surface a
transport error. -/
theorem malformed_payload_outcomes_witness :
    renderPipeline payloadNullData =
      .transportError ("GraphQL error: " ++ attrErrMsg) :=
  (malformed_payload_outcomes payloadNullData rfl).1 rfl

end SearchHotels
